import Mathlib

/-!
# Verification of the travel-recommendation search widget

A shallow embedding of `src/travel_recommendation.js`: the input
normalizer, the search filter, the time annotator, the renderer, the
data loader and the reset handler, together with theorems settling the
spec claims about them.

Strings are modelled through their character lists so that every
operation is structurally recursive and kernel-evaluable.
-/

set_option maxRecDepth 10000

/-- `l₁` is a prefix of `l₂` (boolean, structural). -/
def charListIsPrefixOf : List Char → List Char → Bool
  | [], _ => true
  | _ :: _, [] => false
  | a :: as, b :: bs => a == b && charListIsPrefixOf as bs

/-- `pat` occurs contiguously in `l` (boolean, structural). -/
def charListContains (pat : List Char) : List Char → Bool
  | [] => pat.isEmpty
  | c :: rest => charListIsPrefixOf pat (c :: rest) || charListContains pat rest

/-- JS `String.prototype.includes`: `pat` occurs in `s` as a contiguous
substring. -/
def jsIncludes (s pat : String) : Bool :=
  charListContains pat.data s.data

/-- JS `String.prototype.toLowerCase`, character-wise. -/
def jsToLower (s : String) : String :=
  ⟨s.data.map Char.toLower⟩

/-- JS `String.prototype.trim`: strip leading and trailing whitespace. -/
def jsTrim (s : String) : String :=
  ⟨((s.data.dropWhile Char.isWhitespace).reverse.dropWhile Char.isWhitespace).reverse⟩

/-- A place record as rendered: `{name, description, imageUrl}`
(the `DisplayItem` shape of the spec). -/
structure Place where
  name : String
  description : String
  imageUrl : String
deriving Repr, DecidableEq

/-- A country of the dataset: a name and its ordered cities
(`travelData.countries[i]`). -/
structure Country where
  name : String
  cities : List Place
deriving Repr, DecidableEq

/-- The dataset shape (`travelData`). The `beaches` and `temples`
members may be absent or null in the JSON, hence `Option`;
the code guards the lookup with `travelData[normalizedTerm] || []`. -/
structure Dataset where
  countries : List Country
  beaches : Option (List Place)
  temples : Option (List Place)
deriving Repr, DecidableEq

/-- `normalizeInput` (src/travel_recommendation.js lines 54-64):
lowercase and trim, then keyword-substring classification in the
order beach, temple, country; otherwise the lowercased trimmed term. -/
def normalizeInput (term : String) : String :=
  let lowerTerm := jsTrim (jsToLower term)
  if jsIncludes lowerTerm "beach" then "beaches"
  else if jsIncludes lowerTerm "temple" then "temples"
  else if jsIncludes lowerTerm "country" then "countries"
  else lowerTerm

/-- The pure search logic of `performSearch`
(src/travel_recommendation.js lines 147-184), given the loaded
dataset and the raw input: returns `(results, category)`. -/
def searchLogic (travelData : Dataset) (rawTerm : String) : List Place × String :=
  let normalizedTerm := normalizeInput rawTerm
  if normalizedTerm = "beaches" ∨ normalizedTerm = "temples" then
    -- `results = travelData[normalizedTerm] || []`
    (((if normalizedTerm = "beaches" then travelData.beaches
       else travelData.temples).getD []), normalizedTerm)
  else if normalizedTerm = "countries" ∨ jsTrim rawTerm ≠ "" then
    let countryTerm := jsTrim (jsToLower rawTerm)
    let matchingCountries := travelData.countries.filter fun country =>
      jsIncludes (jsToLower country.name) countryTerm || normalizedTerm == "countries"
    (matchingCountries.flatMap fun country =>
      country.cities.map fun city =>
        { name := city.name, imageUrl := city.imageUrl, description := city.description },
     "countries")
  else
    -- neither branch taken: `results = []`, `category = ''`
    ([], "")

/-- The static timezone table `timezoneMap`
(src/travel_recommendation.js lines 11-18), as a partial lookup:
`none` models a missing key (JS `undefined`). -/
def timezoneMap (name : String) : Option String :=
  if name = "Sydney, Australia" then some "Australia/Sydney"
  else if name = "Melbourne, Australia" then some "Australia/Melbourne"
  else if name = "Tokyo, Japan" then some "Asia/Tokyo"
  else if name = "Kyoto, Japan" then some "Asia/Tokyo"
  else if name = "Rio de Janeiro, Brazil" then some "America/Sao_Paulo"
  else if name = "São Paulo, Brazil" then some "America/Sao_Paulo"
  else none

/-- The ambient clock-and-formatting environment:
`format tz` models `new Date().toLocaleTimeString('en-US', ...)` with
time zone `tz`; `none` models the call throwing (invalid timezone). -/
structure TimeEnv where
  format : String → Option String

/-- `getCurrentTime` (src/travel_recommendation.js lines 26-46): empty
string when the timezone argument is absent (`undefined`) or falsy, the
formatted time on success, and empty string when formatting throws. -/
def getCurrentTime (env : TimeEnv) (timezone : Option String) : String :=
  match timezone with
  | none => ""
  | some tz =>
    if tz = "" then ""
    else match env.format tz with
      | some s => s
      | none => ""

/-- The spec's Time Annotator `currentTime(placeName)`: the table lookup
at line 99 composed with `getCurrentTime` at line 100. -/
def currentTime (env : TimeEnv) (placeName : String) : String :=
  getCurrentTime env (timezoneMap placeName)

/-- Placeholder image used when no real image URL is supplied
(src/travel_recommendation.js line 93). -/
def placeholderImageUrl : String :=
  "https://placehold.co/400x250/A0B9E8/333333?text=Travel+Destination"

/-- The image-URL fallback of the renderer
(src/travel_recommendation.js lines 91-93): keep the supplied URL when
it is truthy and not the `enter_your_image` sentinel. -/
def resolveImageUrl (item : Place) : String :=
  if item.imageUrl != "" && !(jsIncludes item.imageUrl "enter_your_image")
  then item.imageUrl
  else placeholderImageUrl

/-- One rendered card of the results grid
(src/travel_recommendation.js lines 89-133). `timeDisplay` is the
time-annotation markup, empty when no annotation is attached. -/
structure Card where
  imageUrl : String
  name : String
  timeDisplay : String
  description : String
deriving Repr, DecidableEq

/-- Rendering of a single result item
(src/travel_recommendation.js lines 89-132): the time annotation is
computed only when `category === 'countries'` and attached only when
non-empty. -/
def renderCard (env : TimeEnv) (category : String) (item : Place) : Card :=
  let isCityResult := category == "countries"
  let timeDisplay :=
    if isCityResult then
      let time := getCurrentTime env (timezoneMap item.name)
      if time != "" then "Current Time: " ++ time
      else ""
    else ""
  { imageUrl := resolveImageUrl item
    name := item.name
    timeDisplay := timeDisplay
    description := item.description }

/-- What `displayRecommendations` leaves in the results container:
either the "no recommendations found" notice or a grid of cards. -/
inductive RenderOutput where
  | notice : RenderOutput
  | grid : List Card → RenderOutput
deriving Repr, DecidableEq

/-- `displayRecommendations` (src/travel_recommendation.js lines
71-134): empty results render the notice, otherwise one card per item. -/
def displayRecommendations (env : TimeEnv) (results : List Place)
    (category : String) : RenderOutput :=
  if results.length = 0 then .notice
  else .grid (results.map (renderCard env category))

/-- The outcome of the one network fetch inside `fetchRecommendations`:
success with parsed data, a non-ok HTTP status, or a parse/network
error carrying its message. -/
inductive FetchOutcome where
  | success : Dataset → FetchOutcome
  | httpError : Nat → FetchOutcome
  | parseError : String → FetchOutcome
deriving Repr, DecidableEq

/-- The message of the error thrown on a non-ok response
(src/travel_recommendation.js line 197). -/
def httpErrorMessage (status : Nat) : String :=
  "HTTP error! Status: " ++ toString status ++
    ". Check if travel_recommendation_api.json exists."

/-- The error markup written into the results container on a failed
load (src/travel_recommendation.js lines 211-216). -/
def loadErrorHtml (message : String) : String :=
  "Could not load travel data. Please ensure travel_recommendation_api.json is correctly placed and accessible. Details: "
    ++ message

/-- The observable effect of one `fetchRecommendations` call. -/
structure FetchResult where
  newData : Option Dataset
  returned : Option Dataset
  fetchCount : Nat
  renderedError : Option String
deriving Repr, DecidableEq

/-- `fetchRecommendations` (src/travel_recommendation.js lines
192-220): always performs exactly one fetch; on success stores the data
globally and returns it; on failure leaves the global untouched,
renders the error message and returns null. -/
def fetchRecommendations (prev : Option Dataset) (outcome : FetchOutcome) :
    FetchResult :=
  match outcome with
  | .success d => ⟨some d, some d, 1, none⟩
  | .httpError status =>
    ⟨prev, none, 1, some (loadErrorHtml (httpErrorMessage status))⟩
  | .parseError message =>
    ⟨prev, none, 1, some (loadErrorHtml message)⟩

/-- The data-ensuring step at the top of `performSearch`
(src/travel_recommendation.js lines 141-145): fetch only when the
global `travelData` is absent. Returns the new state and the number of
network fetches performed. -/
def ensureDataLoaded (st : Option Dataset) (outcome : FetchOutcome) :
    Option Dataset × Nat :=
  match st with
  | some d => (some d, 0)
  | none =>
    let fr := fetchRecommendations none outcome
    (fr.newData, fr.fetchCount)

/-- The observable effect of one `performSearch` call: the state of the
global `travelData` afterwards, the fetches performed, and the render
output (`none` when the search aborted at the early return). -/
structure SearchRun where
  newData : Option Dataset
  fetchCount : Nat
  output : Option RenderOutput
deriving Repr, DecidableEq

/-- `performSearch` (src/travel_recommendation.js lines 139-185) end to
end: ensure the data is loaded (fetching only when absent), abort when
the load fails, otherwise filter and render. -/
def performSearchRun (env : TimeEnv) (st : Option Dataset)
    (outcome : FetchOutcome) (rawTerm : String) : SearchRun :=
  match st with
  | some d =>
    let res := searchLogic d rawTerm
    ⟨some d, 0, some (displayRecommendations env res.1 res.2)⟩
  | none =>
    let fr := fetchRecommendations none outcome
    match fr.returned with
    | none => ⟨fr.newData, fr.fetchCount, none⟩
    | some d =>
      let res := searchLogic d rawTerm
      ⟨some d, fr.fetchCount, some (displayRecommendations env res.1 res.2)⟩

/-- The visible UI state the handlers act on: the text field, the
results container and the global `travelData`. -/
structure UIState where
  inputValue : String
  display : Option RenderOutput
  travelData : Option Dataset

/-- The reset-button click handler (src/travel_recommendation.js lines
236-248): clear the input field and the results container. The handler
body never calls `fetchRecommendations` and never assigns `travelData`,
so the model returns the fetch count `0` and carries the dataset over. -/
def resetClick (st : UIState) : UIState × Nat :=
  ({ inputValue := "", display := none, travelData := st.travelData }, 0)

/-- A concrete formatting environment in which formatting always
succeeds with a fixed non-empty string. -/
def sampleTimeEnv : TimeEnv :=
  ⟨fun _ => some "Jan 5, 2025, 3:24:10 PM"⟩

/-- A concrete dataset in the shape of the spec's worked example. -/
def sampleDataset : Dataset :=
  { countries :=
      [⟨"Japan", [⟨"Tokyo, Japan", "capital", "imgT"⟩,
                  ⟨"Kyoto, Japan", "old capital", "imgK"⟩]⟩,
       ⟨"Brazil", [⟨"Rio de Janeiro, Brazil", "coastal", "imgR"⟩]⟩]
    beaches := some [⟨"Bora Bora, French Polynesia", "lagoon", "imgB"⟩]
    temples := some [⟨"Angkor Wat, Cambodia", "ruins", "imgA"⟩] }

/-- A concrete place record. -/
def samplePlace : Place :=
  ⟨"Tokyo, Japan", "capital", "imgT"⟩

-- ### Helper lemmas on the character-list substring test

theorem charListIsPrefixOf_append (p t : List Char) :
    charListIsPrefixOf p (p ++ t) = true := by
  induction p with
  | nil => rfl
  | cons a as ih => simp [charListIsPrefixOf, ih]

theorem charListContains_append_left (pre : List Char) {pat l : List Char}
    (h : charListContains pat l = true) :
    charListContains pat (pre ++ l) = true := by
  induction pre with
  | nil => simpa using h
  | cons c cs ih =>
    simp only [List.cons_append, charListContains, Bool.or_eq_true]
    exact Or.inr ih

theorem charListContains_self_append (pat t : List Char) :
    charListContains pat (pat ++ t) = true := by
  cases pat with
  | nil =>
    induction t with
    | nil => rfl
    | cons c cs ih =>
      simp only [List.nil_append] at ih ⊢
      simp [charListContains, charListIsPrefixOf]
  | cons a as =>
    simp only [charListContains, List.cons_append, Bool.or_eq_true]
    exact Or.inl (by simpa using charListIsPrefixOf_append (a :: as) t)

theorem jsIncludes_append_right (s t : String) :
    jsIncludes (s ++ t) t = true := by
  unfold jsIncludes
  rw [String.data_append]
  exact charListContains_append_left s.data
    (by simpa using charListContains_self_append t.data [])

theorem strAppend_ne_empty {s : String} (t : String) (h : s ≠ "") :
    s ++ t ≠ "" := by
  intro hc
  have h2 := congrArg String.data hc
  rw [String.data_append] at h2
  exact h (String.ext (List.append_eq_nil.mp h2).1)

-- ### Claim theorems

/-- C1: `normalize(raw)` first lowercases and trims, then returns
`beaches` when the result contains `beach`, else `temples` when it
contains `temple`, else `countries` when it contains `country`, else
the lowercased trimmed string itself; the first check wins, so an input
containing both `beach` and `temple` yields `beaches`. -/
theorem normalizeInput_spec (raw : String) :
    (jsIncludes (jsTrim (jsToLower raw)) "beach" = true →
      normalizeInput raw = "beaches") ∧
    (jsIncludes (jsTrim (jsToLower raw)) "beach" = false →
      jsIncludes (jsTrim (jsToLower raw)) "temple" = true →
      normalizeInput raw = "temples") ∧
    (jsIncludes (jsTrim (jsToLower raw)) "beach" = false →
      jsIncludes (jsTrim (jsToLower raw)) "temple" = false →
      jsIncludes (jsTrim (jsToLower raw)) "country" = true →
      normalizeInput raw = "countries") ∧
    (jsIncludes (jsTrim (jsToLower raw)) "beach" = false →
      jsIncludes (jsTrim (jsToLower raw)) "temple" = false →
      jsIncludes (jsTrim (jsToLower raw)) "country" = false →
      normalizeInput raw = jsTrim (jsToLower raw)) := by
  refine ⟨?_, ?_, ?_, ?_⟩ <;> intros <;> simp [normalizeInput, *]

/-- C1 witness: an input containing both keywords resolves to
`beaches`. -/
theorem normalizeInput_spec_witness : normalizeInput " Beach Temple " = "beaches" :=
  (normalizeInput_spec " Beach Temple ").1 (by decide)

/-- C2: when the normalization is neither `beaches` nor `temples`, and
it is `countries` or the trimmed raw input is non-empty, the search
returns category `countries` with exactly the cities, in stored order,
of the countries whose lowercased name contains the lowercased trimmed
raw input — or of all countries when the normalized term is
`countries`. -/
theorem searchLogic_countries (data : Dataset) (raw : String)
    (h1 : normalizeInput raw ≠ "beaches") (h2 : normalizeInput raw ≠ "temples")
    (h3 : normalizeInput raw = "countries" ∨ jsTrim raw ≠ "") :
    searchLogic data raw =
      ((data.countries.filter fun country =>
          jsIncludes (jsToLower country.name) (jsTrim (jsToLower raw)) ||
            normalizeInput raw == "countries").flatMap fun country => country.cities,
       "countries") := by
  have hcond : ¬(normalizeInput raw = "beaches" ∨ normalizeInput raw = "temples") := by
    rintro (h | h)
    · exact h1 h
    · exact h2 h
  have hmap : (fun city : Place =>
      ({ name := city.name, imageUrl := city.imageUrl,
         description := city.description } : Place)) = id :=
    funext fun c => rfl
  simp only [searchLogic]
  rw [if_neg hcond, if_pos h3]
  simp [hmap]

/-- C2 witness: the spec's worked example, `search(dataset, "japan")`. -/
theorem searchLogic_countries_witness :
    searchLogic sampleDataset "japan" =
      ([⟨"Tokyo, Japan", "capital", "imgT"⟩,
        ⟨"Kyoto, Japan", "old capital", "imgK"⟩], "countries") := by
  rw [searchLogic_countries sampleDataset "japan" (by decide) (by decide)
    (Or.inr (by decide))]
  decide

/-- C3: when the normalization is `beaches` or `temples`, the category
is that token and the results are the corresponding dataset sequence
verbatim. -/
theorem searchLogic_beaches_temples (data : Dataset) (raw : String) :
    (normalizeInput raw = "beaches" →
      (searchLogic data raw).2 = "beaches" ∧
      ∀ l, data.beaches = some l → (searchLogic data raw).1 = l) ∧
    (normalizeInput raw = "temples" →
      (searchLogic data raw).2 = "temples" ∧
      ∀ l, data.temples = some l → (searchLogic data raw).1 = l) := by
  constructor
  · intro h
    constructor
    · simp [searchLogic, h]
    · intro l hl
      simp [searchLogic, h, hl]
  · intro h
    constructor
    · simp [searchLogic, h]
    · intro l hl
      simp [searchLogic, h, hl]

/-- C3 witness: `search(dataset, "beach")` returns `dataset.beaches`
unmodified, under category `beaches`. -/
theorem searchLogic_beaches_temples_witness :
    (searchLogic sampleDataset "beach").2 = "beaches" ∧
    (searchLogic sampleDataset "beach").1 =
      [⟨"Bora Bora, French Polynesia", "lagoon", "imgB"⟩] := by
  have h := (searchLogic_beaches_temples sampleDataset "beach").1 (by decide)
  exact ⟨h.1, h.2 _ rfl⟩

/-- C4: when the raw input trims to empty and its normalization is none
of the three category tokens, no branch matches and the search returns
an empty result list with an empty category string. -/
theorem searchLogic_empty_input (data : Dataset) (raw : String)
    (h0 : jsTrim raw = "")
    (h1 : normalizeInput raw ≠ "beaches") (h2 : normalizeInput raw ≠ "temples")
    (h3 : normalizeInput raw ≠ "countries") :
    searchLogic data raw = ([], "") := by
  simp [searchLogic, h0, h1, h2, h3]

/-- C4 witness: `search(dataset, "")` yields no results and an empty
category. -/
theorem searchLogic_empty_input_witness :
    searchLogic sampleDataset "" = ([], "") :=
  searchLogic_empty_input sampleDataset "" (by decide) (by decide) (by decide)
    (by decide)

/-- C5: after a first successful load attempt has populated the shared
`travelData`, a second sequential load attempt finds the cached dataset
and performs no fetch, so the two attempts perform exactly one network
fetch in total — both for the bare data-ensuring step and for two full
`performSearch` runs. -/
theorem loader_memoized (d : Dataset) (o : FetchOutcome) (env : TimeEnv)
    (raw1 raw2 : String) :
    (ensureDataLoaded none (.success d)).2 = 1 ∧
    (ensureDataLoaded none (.success d)).1 = some d ∧
    (ensureDataLoaded (ensureDataLoaded none (.success d)).1 o).2 = 0 ∧
    (ensureDataLoaded (ensureDataLoaded none (.success d)).1 o).1 = some d ∧
    (ensureDataLoaded none (.success d)).2 +
      (ensureDataLoaded (ensureDataLoaded none (.success d)).1 o).2 = 1 ∧
    (performSearchRun env none (.success d) raw1).fetchCount = 1 ∧
    (performSearchRun env none (.success d) raw1).newData = some d ∧
    (performSearchRun env
        (performSearchRun env none (.success d) raw1).newData o raw2).fetchCount = 0 ∧
    (performSearchRun env none (.success d) raw1).fetchCount +
      (performSearchRun env
        (performSearchRun env none (.success d) raw1).newData o raw2).fetchCount = 1 :=
  ⟨rfl, rfl, rfl, rfl, rfl, rfl, rfl, rfl, rfl⟩

/-- C6: a failing load performs exactly one fetch (no retry), returns
no data, and renders a terminal message containing the error detail;
a search issued while the dataset is absent triggers exactly one fresh
load attempt and aborts with no output when that load fails. -/
theorem loadFailure_spec (prev : Option Dataset) (status : Nat)
    (message : String) (env : TimeEnv) (raw : String) :
    ((fetchRecommendations prev (.httpError status)).returned = none ∧
     (fetchRecommendations prev (.httpError status)).fetchCount = 1 ∧
     ∃ html, (fetchRecommendations prev (.httpError status)).renderedError = some html ∧
       jsIncludes html (httpErrorMessage status) = true) ∧
    ((fetchRecommendations prev (.parseError message)).returned = none ∧
     (fetchRecommendations prev (.parseError message)).fetchCount = 1 ∧
     ∃ html, (fetchRecommendations prev (.parseError message)).renderedError = some html ∧
       jsIncludes html message = true) ∧
    ((performSearchRun env none (.httpError status) raw).fetchCount = 1 ∧
     (performSearchRun env none (.httpError status) raw).output = none ∧
     (performSearchRun env none (.parseError message) raw).fetchCount = 1 ∧
     (performSearchRun env none (.parseError message) raw).output = none) := by
  refine ⟨⟨rfl, rfl, ⟨_, rfl, ?_⟩⟩, ⟨rfl, rfl, ⟨_, rfl, ?_⟩⟩, rfl, rfl, rfl, rfl⟩
  · exact jsIncludes_append_right _ _
  · exact jsIncludes_append_right _ _

/-- C7: a place name missing from the timezone table, or a failing
timezone computation, yields the empty string from `currentTime`;
rendering still produces one card per result; and a name present in the
table, such as Tokyo, yields the (non-empty) formatted string. -/
theorem currentTime_spec (env : TimeEnv) (name : String) :
    (timezoneMap name = none → currentTime env name = "") ∧
    (∀ tz, timezoneMap name = some tz → env.format tz = none →
      currentTime env name = "") ∧
    (∀ results category, results ≠ ([] : List Place) →
      displayRecommendations env results category =
        .grid (results.map (renderCard env category)) ∧
      (results.map (renderCard env category)).length = results.length) ∧
    (∀ s, env.format "Asia/Tokyo" = some s → s ≠ "" →
      currentTime env "Tokyo, Japan" = s) := by
  refine ⟨?_, ?_, ?_, ?_⟩
  · intro h
    simp [currentTime, getCurrentTime, h]
  · intro tz h1 h2
    simp only [currentTime, getCurrentTime, h1]
    rw [h2]
    split <;> rfl
  · intro results category h
    have hlen : results.length ≠ 0 := by
      simpa [List.length_eq_zero] using h
    constructor
    · simp [displayRecommendations, hlen]
    · simp
  · intro s h1 _
    have htz : timezoneMap "Tokyo, Japan" = some "Asia/Tokyo" := by decide
    simp only [currentTime, htz, getCurrentTime]
    rw [if_neg (by decide), h1]

/-- C7 witness: an unknown place degrades to the empty string while
Tokyo gets the formatted time. -/
theorem currentTime_spec_witness :
    currentTime sampleTimeEnv "Unknown City" = "" ∧
    currentTime sampleTimeEnv "Tokyo, Japan" = "Jan 5, 2025, 3:24:10 PM" :=
  ⟨(currentTime_spec sampleTimeEnv "Unknown City").1 (by decide),
   (currentTime_spec sampleTimeEnv "Tokyo, Japan").2.2.2 _ rfl (by decide)⟩

/-- C8: the time annotation is attached only under the `countries`
category: under any other category — in particular `beaches` and
`temples` — the rendered card carries no time annotation, and under
`countries` it carries one exactly when `currentTime` is non-empty. -/
theorem timeAnnotation_only_countries (env : TimeEnv) (item : Place) :
    (∀ category, category ≠ "countries" →
      (renderCard env category item).timeDisplay = "") ∧
    (renderCard env "beaches" item).timeDisplay = "" ∧
    (renderCard env "temples" item).timeDisplay = "" ∧
    ((renderCard env "countries" item).timeDisplay ≠ "" ↔
      currentTime env item.name ≠ "") := by
  have hother : ∀ category, category ≠ "countries" →
      (renderCard env category item).timeDisplay = "" := by
    intro category h
    simp [renderCard, h]
  refine ⟨hother, hother _ (by decide), hother _ (by decide), ?_⟩
  by_cases h : currentTime env item.name = ""
  · simp only [currentTime] at h
    simp [renderCard, currentTime, h]
  · have h2 : currentTime env item.name ≠ "" := h
    simp only [currentTime] at h
    simp only [renderCard]
    simp only [bne_iff_ne, ne_eq, h, not_false_eq_true, if_true, beq_self_eq_true,
      if_pos]
    exact ⟨fun _ => h2, fun _ => strAppend_ne_empty _ (by decide)⟩

/-- C8 witness: a beaches-category card carries no time annotation. -/
theorem timeAnnotation_only_countries_witness :
    (renderCard sampleTimeEnv "beaches" samplePlace).timeDisplay = "" :=
  (timeAnnotation_only_countries sampleTimeEnv samplePlace).1 "beaches" (by decide)

/-- C9: the reset action clears the input field and the results area
and leaves the cached dataset unchanged, performing no fetch. -/
theorem resetClick_spec (st : UIState) :
    (resetClick st).1.inputValue = "" ∧
    (resetClick st).1.display = none ∧
    (resetClick st).1.travelData = st.travelData ∧
    (resetClick st).2 = 0 :=
  ⟨rfl, rfl, rfl, rfl⟩

/-- C10: when the `beaches` (resp. `temples`) member of the dataset is
absent or null, a search normalizing to that token still returns — the
guarded lookup defaults to the empty list — with that category. -/
theorem searchLogic_missing_sequences (data : Dataset) (raw : String) :
    (normalizeInput raw = "beaches" → data.beaches = none →
      searchLogic data raw = ([], "beaches")) ∧
    (normalizeInput raw = "temples" → data.temples = none →
      searchLogic data raw = ([], "temples")) := by
  constructor
  · intro h hb
    simp [searchLogic, h, hb]
  · intro h ht
    simp [searchLogic, h, ht]

/-- C10 witness: a dataset with null `beaches` and `temples` members
still answers the `beach` search with an empty result list. -/
theorem searchLogic_missing_sequences_witness :
    searchLogic ⟨[], none, none⟩ "beach" = ([], "beaches") :=
  (searchLogic_missing_sequences ⟨[], none, none⟩ "beach").1 (by decide) rfl
